import Mathlib

/-!
Verification of the Tado X integration core (api.py, coordinator.py).

Shallow embedding conventions:
- JSON payloads are modelled by `JValue`; Python `dict.get(k)` returns `null`
  for a missing key, `dict.get(k, d)` returns `d` only when the key is missing.
- Python floats are modelled as exact rationals; `round(x, 1)` is modelled as
  decimal round-half-to-even (Python 3 `round` semantics on exact values).
- Python dicts are insertion-ordered association lists (`omInsert`/`omLookup`):
  assignment to an existing key replaces the value in place, a new key is
  appended at the end.
- Fields that the dataclasses declare as `int`/`str` are extracted typed: a
  payload value of the wrong type is treated like a missing one (out of the
  model, the source would store the raw object unchecked).
- datetimes carry the epoch value of their own clock plus an awareness flag;
  `datetime.now()` reads the naive local clock, `datetime.now(timezone.utc)`
  the aware UTC clock.
-/

/-- JSON-like payload values as delivered by the vendor API. -/
inductive JValue where
  | null : JValue
  | bool : Bool → JValue
  | num : ℚ → JValue
  | str : String → JValue
  | arr : List JValue → JValue
  | obj : List (String × JValue) → JValue
deriving Repr, Inhabited

/-- Ordered-map lookup (Python dict access). -/
def omLookup {α β : Type} [DecidableEq α] : List (α × β) → α → Option β
  | [], _ => none
  | (k, v) :: rest, k' => if k = k' then some v else omLookup rest k'

/-- Ordered-map insert: Python dict assignment (replace in place or append). -/
def omInsert {α β : Type} [DecidableEq α] : List (α × β) → α → β → List (α × β)
  | [], k, v => [(k, v)]
  | (k', v') :: rest, k, v =>
    if k' = k then (k, v) :: rest else (k', v') :: omInsert rest k v

/-- Python `dict.get(key)` on an object: `None` (null) when missing. -/
def JValue.getOpt : JValue → String → Option JValue
  | .obj fs, k => omLookup fs k
  | _, _ => none

/-- Python `dict.get(key, default)`: the default applies only to a missing key. -/
def JValue.getD (v : JValue) (k : String) (d : JValue) : JValue :=
  (v.getOpt k).getD d

/-- Python `dict.get(key)` returning `None` as `null`. -/
def JValue.get (v : JValue) (k : String) : JValue :=
  v.getD k .null

/-- Python truthiness of a JSON value. -/
def JValue.truthy : JValue → Bool
  | .null => false
  | .bool b => b
  | .num q => q != 0
  | .str s => s != ""
  | .arr xs => !xs.isEmpty
  | .obj fs => !fs.isEmpty

/-- Python `x or {}`. -/
def JValue.orEmptyObj (v : JValue) : JValue :=
  if v.truthy then v else .obj []

/-- Elements of a JSON array (iteration). -/
def JValue.asList : JValue → List JValue
  | .arr xs => xs
  | _ => []

/-- Python `x or []` followed by iteration; non-arrays iterate as empty here. -/
def JValue.orEmptyList (v : JValue) : List JValue :=
  if v.truthy then v.asList else []

/-- Python `x is not None` for a value read via `dict.get`. -/
def JValue.isNotNone : JValue → Bool
  | .null => false
  | _ => true

/-- Typed extraction of an int-valued field. -/
def jint? : JValue → Option Int
  | .num q => if q.den = 1 then some q.num else none
  | _ => none

/-- Typed extraction of a numeric field. -/
def getNum? (v : JValue) (k : String) : Option ℚ :=
  match v.getOpt k with
  | some (.num q) => some q
  | _ => none

/-- Numeric field with default (`dict.get(k, d)` at a numeric position). -/
def getNumD (v : JValue) (k : String) (d : ℚ) : ℚ :=
  (getNum? v k).getD d

/-- Typed extraction of a string-valued field. -/
def getStr? (v : JValue) (k : String) : Option String :=
  match v.getOpt k with
  | some (.str s) => some s
  | _ => none

/-- String field with default (`dict.get(k, d)` at a string position). -/
def getStrD (v : JValue) (k : String) (d : String) : String :=
  (getStr? v k).getD d

/-- Boolean field with default (`dict.get(k, d)` at a boolean position). -/
def getBoolD (v : JValue) (k : String) (d : Bool) : Bool :=
  match v.getOpt k with
  | some (.bool b) => b
  | _ => d

/-- Python 3 `round` to an integer: round half to even. -/
def pyRoundHalfEven (q : ℚ) : ℤ :=
  if q - ⌊q⌋ < 1/2 then ⌊q⌋
  else if q - ⌊q⌋ > 1/2 then ⌊q⌋ + 1
  else if ⌊q⌋ % 2 = 0 then ⌊q⌋ else ⌊q⌋ + 1

/-- Python `round(x, 1)` on exact values. -/
def pyRound1 (q : ℚ) : ℚ :=
  (pyRoundHalfEven (q * 10) : ℚ) / 10

/-- coordinator.py `TadoXDevice` dataclass. -/
structure TadoXDevice where
  serial_number : String
  device_type : String
  firmware_version : String
  connection_state : String
  battery_state : Option String := none
  temperature_measured : Option ℚ := none
  temperature_offset : ℚ := 0
  mounting_state : Option String := none
  child_lock_enabled : Bool := false
  room_id : Option Int := none
  room_name : Option String := none
deriving Repr, DecidableEq

/-- coordinator.py `TadoXRoom` dataclass. -/
structure TadoXRoom where
  room_id : Int
  name : String
  current_temperature : Option ℚ := none
  target_temperature : Option ℚ := none
  humidity : Option ℚ := none
  heating_power : ℚ := 0
  power : String := "OFF"
  connection_state : String := "DISCONNECTED"
  manual_control_active : Bool := false
  manual_control_remaining_seconds : Option ℚ := none
  manual_control_type : Option String := none
  boost_mode : Bool := false
  open_window_detected : Bool := false
  next_schedule_change : Option String := none
  next_schedule_temperature : Option ℚ := none
  devices : List TadoXDevice := []
deriving Repr, DecidableEq

/-- coordinator.py `TadoXData` dataclass (the published snapshot). -/
structure TadoXData where
  home_id : Int
  home_name : String
  presence : Option String := none
  rooms : List (Int × TadoXRoom) := []
  devices : List (String × TadoXDevice) := []
  other_devices : List TadoXDevice := []
deriving Repr, DecidableEq

/-- Room id guard of the room-state loop (coordinator.py lines 196-198):
`room_id = room_data.get("id")`, skip when falsy. Ids are modelled at the
dataclass type `int`. -/
def roomIdOf (rd : JValue) : Option Int :=
  match jint? (rd.get "id") with
  | some i => if i = 0 then none else some i
  | none => none

/-- Device construction for a room's device (coordinator.py lines 258-272). -/
def normalizeDevice (rid : Int) (rname : String) (dd : JValue) : TadoXDevice :=
  let deviceConnection := (dd.get "connection").orEmptyObj
  { serial_number := getStrD dd "serialNumber" ""
    device_type := getStrD dd "type" ""
    firmware_version := getStrD dd "firmwareVersion" ""
    connection_state := getStrD deviceConnection "state" "DISCONNECTED"
    battery_state := getStr? dd "batteryState"
    temperature_measured := getNum? dd "temperatureAsMeasured"
    temperature_offset := getNumD dd "temperatureOffset" 0
    mounting_state := getStr? dd "mountingState"
    child_lock_enabled := getBoolD dd "childLockEnabled" false
    room_id := some rid
    room_name := some rname }

/-- Room construction from one room-state payload (coordinator.py lines
195-255), before devices are attached; `none` models the `continue` on a
falsy id. -/
def normalizeRoom (rd : JValue) : Option TadoXRoom :=
  match roomIdOf rd with
  | none => none
  | some rid =>
    let sensor_data := (rd.get "sensorDataPoints").orEmptyObj
    let inside_temp := (sensor_data.get "insideTemperature").orEmptyObj
    let humidity_data := (sensor_data.get "humidity").orEmptyObj
    let setting := (rd.get "setting").orEmptyObj
    let target_temp := (setting.get "temperature").orEmptyObj
    let manual_control := rd.get "manualControlTermination"
    let next_change := (rd.get "nextScheduleChange").orEmptyObj
    let next_change_setting := (next_change.get "setting").orEmptyObj
    let next_change_temp_obj := (next_change_setting.get "temperature").orEmptyObj
    let heating_power_data := (rd.get "heatingPower").orEmptyObj
    let connection_data := (rd.get "connection").orEmptyObj
    some
      { room_id := rid
        name := getStrD rd "name" ("Room " ++ toString rid)
        current_temperature := getNum? inside_temp "value"
        target_temperature := getNum? target_temp "value"
        humidity := getNum? humidity_data "percentage"
        heating_power := getNumD heating_power_data "percentage" 0
        power := getStrD setting "power" "OFF"
        connection_state := getStrD connection_data "state" "DISCONNECTED"
        manual_control_active := manual_control.isNotNone
        manual_control_remaining_seconds :=
          if manual_control.truthy then getNum? manual_control "remainingTimeInSeconds" else none
        manual_control_type :=
          if manual_control.truthy then getStr? manual_control "type" else none
        boost_mode := (rd.get "boostMode").isNotNone
        open_window_detected := (rd.get "openWindow").isNotNone
        next_schedule_change := getStr? next_change "start"
        next_schedule_temperature := getNum? next_change_temp_obj "value"
        devices := [] }

/-- Insert a list of devices into the flat serial index, in order. -/
def insertDevices (m : List (String × TadoXDevice)) (L : List TadoXDevice) :
    List (String × TadoXDevice) :=
  L.foldl (fun m d => omInsert m d.serial_number d) m

/-- The `room_devices_map` built from the rooms-with-devices payload
(coordinator.py lines 186-192). -/
def roomDevicesMap (roomsInfo : List JValue) : List (Int × List JValue) :=
  roomsInfo.foldl
    (fun m ri =>
      match jint? (ri.get "roomId") with
      | some rid => if rid = 0 then m else omInsert m rid ((ri.getD "devices" (.arr [])).asList)
      | none => m)
    []

/-- Per-room device loop (coordinator.py lines 257-274): append each device to
the room's list and index it by serial. -/
def processRoomDevices (rid : Int) (rname : String)
    (start : List TadoXDevice × List (String × TadoXDevice)) (ds : List JValue) :
    List TadoXDevice × List (String × TadoXDevice) :=
  ds.foldl
    (fun acc dd =>
      let d := normalizeDevice rid rname dd
      (acc.1 ++ [d], omInsert acc.2 d.serial_number d))
    start

/-- One iteration of the room-state loop (coordinator.py lines 195-276). -/
def processRoomStep (rmap : List (Int × List JValue))
    (st : List (Int × TadoXRoom) × List (String × TadoXDevice)) (rd : JValue) :
    List (Int × TadoXRoom) × List (String × TadoXDevice) :=
  match normalizeRoom rd with
  | none => st
  | some room =>
    let ds := (omLookup rmap room.room_id).getD []
    let step := processRoomDevices room.room_id room.name (room.devices, st.2) ds
    (omInsert st.1 room.room_id { room with devices := step.1 }, step.2)

/-- Phase 1 of `_async_update_data` (coordinator.py lines 194-276): build every
room from its state payload, attach its devices, and fill the flat index. -/
def processRoomsPhase (roomsData : List JValue) (rmap : List (Int × List JValue)) :
    List (Int × TadoXRoom) × List (String × TadoXDevice) :=
  roomsData.foldl (processRoomStep rmap) ([], [])

/-- The room with the greatest device count (coordinator.py lines 280-286):
strict improvement only, so ties keep the first-seen room, and a room must have
at least one device to qualify. -/
def roomWithMostDevicesAux (acc : Option Int × Nat) :
    List (Int × TadoXRoom) → Option Int × Nat
  | [] => acc
  | p :: rest =>
    roomWithMostDevicesAux
      (if p.2.devices.length > acc.2 then (some p.1, p.2.devices.length) else acc) rest

/-- `room_with_most_devices` after the fold (coordinator.py lines 280-286). -/
def roomWithMostDevices (rooms : List (Int × TadoXRoom)) : Option Int :=
  (roomWithMostDevicesAux (none, 0) rooms).1

/-- Python truthiness of an int-or-None value. -/
def otruthy : Option Int → Bool
  | some i => i != 0
  | none => false

/-- Truthy room id that names an existing room (`other_room_id and
other_room_id in data.rooms`). -/
def truthyMem (rooms : List (Int × TadoXRoom)) : Option Int → Option Int
  | some i => if i ≠ 0 ∧ (omLookup rooms i).isSome then some i else none
  | none => none

/-- State threaded through the other-devices loop. -/
structure OtherState where
  rooms : List (Int × TadoXRoom)
  devices : List (String × TadoXDevice)
  other_devices : List TadoXDevice
deriving Repr, DecidableEq

/-- Room association chosen for one other-device payload (coordinator.py lines
290-308): the raw room id when it names an existing room, else the
most-populated room for a TR04 wall thermostat, else the raw id with no name. -/
def otherRoomAssoc (rooms : List (Int × TadoXRoom)) (rwm : Option Int)
    (raw : Option Int) (dtype : String) : Option Int × Option String :=
  match truthyMem rooms raw with
  | some i => (some i, (omLookup rooms i).map TadoXRoom.name)
  | none =>
    if dtype = "TR04" ∧ otruthy rwm then
      (rwm, (rwm.bind (omLookup rooms)).map TadoXRoom.name)
    else (raw, none)

/-- The device record built for one other-device payload (coordinator.py
lines 289-317), with its room association resolved against the rooms built
this cycle. -/
def otherDeviceOf (rooms : List (Int × TadoXRoom)) (rwm : Option Int)
    (dd : JValue) : TadoXDevice :=
  let other_device_connection := (dd.get "connection").orEmptyObj
  let raw := jint? (dd.get "roomId")
  let dtype := getStrD dd "type" ""
  let assoc := otherRoomAssoc rooms rwm raw dtype
  { serial_number := getStrD dd "serialNumber" ""
    device_type := dtype
    firmware_version := getStrD dd "firmwareVersion" ""
    connection_state := getStrD other_device_connection "state" "DISCONNECTED"
    room_id := assoc.1
    room_name := assoc.2 }

/-- One iteration of the other-devices loop (coordinator.py lines 288-324):
build the device, append it to its room's list when the (possibly reassigned)
room id names an existing room, and index it by serial. -/
def processOtherDevice (rwm : Option Int) (st : OtherState) (dd : JValue) : OtherState :=
  let d := otherDeviceOf st.rooms rwm dd
  let rooms' :=
    match d.room_id with
    | some i =>
      if i ≠ 0 then
        match omLookup st.rooms i with
        | some room => omInsert st.rooms i { room with devices := room.devices ++ [d] }
        | none => st.rooms
      else st.rooms
    | none => st.rooms
  { rooms := rooms'
    devices := omInsert st.devices d.serial_number d
    other_devices := st.other_devices ++ [d] }

/-- Rooms, device index and other-devices list after both normalization
passes of `_async_update_data` (coordinator.py lines 185-324). -/
def buildOtherState (roomsData : List JValue) (roomsDevicesData : JValue) : OtherState :=
  let roomsInfo := (roomsDevicesData.getD "rooms" (.arr [])).asList
  let rmap := roomDevicesMap roomsInfo
  let phase1 := processRoomsPhase roomsData rmap
  let rwm := roomWithMostDevices phase1.1
  let others := (roomsDevicesData.get "otherDevices").orEmptyList
  others.foldl (processOtherDevice rwm)
    { rooms := phase1.1, devices := phase1.2, other_devices := [] }

/-- The normalization pass of `_async_update_data` (coordinator.py lines
179-324): rooms from state payloads, devices attached per room, then the
other-devices pass with the thermostat association heuristic. -/
def buildData (home_id : Int) (home_name : String) (presence : Option String)
    (roomsData : List JValue) (roomsDevicesData : JValue) : TadoXData :=
  let st := buildOtherState roomsData roomsDevicesData
  { home_id := home_id
    home_name := home_name
    presence := presence
    rooms := st.rooms
    devices := st.devices
    other_devices := st.other_devices }

/-- A Python datetime: epoch seconds on its own clock plus awareness flag.
`datetime.now()` is naive local time, `datetime.now(timezone.utc)` is aware. -/
structure PyDateTime where
  epoch : Int
  aware : Bool
deriving Repr, DecidableEq

/-- The credential set held by `TadoXApi` (api.py lines 42-45). -/
structure TokenSt where
  access_token : Option String
  refresh_token : Option String
  token_expiry : Option PyDateTime
deriving Repr, DecidableEq

/-- Body of a token-endpoint response; `refresh_token` and `expires_in` model
`data.get(...)` with the field absent as `none`. A 2xx body is assumed to carry
`access_token` (the source indexes `data["access_token"]` unchecked). -/
structure TokenResponse where
  access_token : String
  refresh_token : Option String := none
  expires_in : Option Int := none
deriving Repr, DecidableEq

/-- Outcome of one POST to the token endpoint: transport error
(`aiohttp.ClientError`) or an HTTP response with a status and parsed body. -/
inductive TokenHttp where
  | netErr : String → TokenHttp
  | resp : Nat → TokenResponse → TokenHttp
deriving Repr, DecidableEq

/-- `TadoXAuthError`. -/
inductive TadoXAuthErr where
  | authError : String → TadoXAuthErr
deriving Repr, DecidableEq

/-- `refresh_access_token` (api.py lines 158-187). -/
def refresh_access_token (st : TokenSt) (env : TokenHttp) (utcNow : Int) :
    Except TadoXAuthErr TokenSt :=
  match st.refresh_token with
  | none => .error (.authError "No refresh token available")
  | some rt =>
    match env with
    | .netErr m => .error (.authError ("Network error during token refresh: " ++ m))
    | .resp status data =>
      if status ≠ 200 then
        .error (.authError ("Failed to refresh token: " ++ toString status))
      else
        .ok { access_token := some data.access_token
              refresh_token := some (data.refresh_token.getD rt)
              token_expiry := some ⟨utcNow + data.expires_in.getD 600, true⟩ }

/-- One iteration's environment for the `poll_for_token` loop: a transport
error (logged, slept over, retried), or a token-endpoint response together
with the naive local clock value at that iteration. The loop's wall-clock
budget is modelled by the finiteness of the iteration list (an empty rest
means the `while` guard expired, returning `False`). -/
inductive PollIter where
  | netErr : String → PollIter
  | resp : Nat → TokenResponse → Option String → Option String → Int → PollIter
deriving Repr, DecidableEq

/-- `poll_for_token` (api.py lines 117-156). In `PollIter.resp status body err
errDescription localNow`, `err` and `errDescription` model `data.get("error")`
and `data.get("error_description")`. -/
def poll_for_token (st : TokenSt) : List PollIter → Except TadoXAuthErr (TokenSt × Bool)
  | [] => .ok (st, false)
  | .netErr _ :: rest => poll_for_token st rest
  | .resp status data err errDescription localNow :: rest =>
    if status = 200 then
      .ok ({ access_token := some data.access_token
             refresh_token := data.refresh_token
             token_expiry := some ⟨localNow + data.expires_in.getD 600, false⟩ }, true)
    else if err = some "authorization_pending" then
      poll_for_token st rest
    else
      .error (.authError ("Token error: " ++ errDescription.getD (err.getD "")))

/-- The near-expiry test of `ensure_valid_token` (api.py lines 196-205):
aware expiries compare against aware UTC now, naive ones against naive local
now; refresh when within 60 seconds of expiry. -/
def needsRefreshCheck (st : TokenSt) (utcNow localNow : Int) : Bool :=
  match st.token_expiry with
  | none => false
  | some exp =>
    let now : Int := if exp.aware then utcNow else localNow
    decide (now ≥ exp.epoch - 60)

/-- `ensure_valid_token` (api.py lines 189-206). -/
def ensure_valid_token (st : TokenSt) (env : TokenHttp) (utcNow localNow : Int) :
    Except TadoXAuthErr TokenSt :=
  match st.access_token with
  | none => .error (.authError "Not authenticated")
  | some _ =>
    if needsRefreshCheck st utcNow localNow then refresh_access_token st env utcNow
    else .ok st

/-- An HTTP response as seen by `_request`: status, body text, the
`content_length` header (None when unknown), and the parsed JSON body. -/
structure HttpResponse where
  status : Nat
  text : String
  content_length : Option Nat
  json : JValue
deriving Repr, Inhabited

/-- One HTTP attempt: transport error (`aiohttp.ClientError`) or a response. -/
inductive HttpAttempt where
  | netErr : String → HttpAttempt
  | resp : HttpResponse → HttpAttempt
deriving Repr, Inhabited

/-- Environment of one `_request` call: the first response, the token-endpoint
behaviour should a refresh run, and the retry response. -/
structure RequestEnv where
  first : HttpAttempt
  refreshEnv : TokenHttp
  retry : HttpAttempt
deriving Repr

/-- Externally visible error of `_request`: `TadoXAuthError` from the token
layer, `TadoXApiError` from a bad status (carrying status and body text, as in
the message built at api.py lines 241 and 248), or a wrapped transport error
(api.py line 255). -/
inductive ReqErr where
  | auth : String → ReqErr
  | api : Nat → String → ReqErr
  | net : String → ReqErr
deriving Repr, DecidableEq

/-- Events observable from one `_request` call, in order. -/
inductive ReqEv where
  | httpReq : ReqEv
  | tokenRefresh : ReqEv
deriving Repr, DecidableEq

/-- `_request` (api.py lines 208-255), with the proactive `ensure_valid_token`
in front, returning the parsed result together with the ordered trace of HTTP
requests and token refreshes performed. -/
def tadoRequest (st : TokenSt) (env : RequestEnv) (utcNow localNow : Int) :
    Except ReqErr (Option JValue) × List ReqEv :=
  match st.access_token with
  | none => (.error (.auth "Not authenticated"), [])
  | some _ =>
    let ensureStep : Except ReqErr TokenSt × List ReqEv :=
      if needsRefreshCheck st utcNow localNow then
        match refresh_access_token st env.refreshEnv utcNow with
        | .ok st' => (.ok st', [.tokenRefresh])
        | .error (.authError m) => (.error (.auth m), [.tokenRefresh])
      else (.ok st, [])
    match ensureStep with
    | (.error e, tr) => (.error e, tr)
    | (.ok st1, tr) =>
      match env.first with
      | .netErr m => (.error (.net ("Network error: " ++ m)), tr ++ [.httpReq])
      | .resp r =>
        if r.status = 401 then
          match refresh_access_token st1 env.refreshEnv utcNow with
          | .error (.authError m) => (.error (.auth m), tr ++ [.httpReq, .tokenRefresh])
          | .ok _ =>
            match env.retry with
            | .netErr m =>
              (.error (.net ("Network error: " ++ m)), tr ++ [.httpReq, .tokenRefresh, .httpReq])
            | .resp rr =>
              let trace := tr ++ [.httpReq, .tokenRefresh, .httpReq]
              if rr.status ≠ 200 then (.error (.api rr.status rr.text), trace)
              else if rr.content_length = some 0 then (.ok none, trace)
              else (.ok (some rr.json), trace)
        else if r.status ≠ 200 ∧ r.status ≠ 204 then
          (.error (.api r.status r.text), tr ++ [.httpReq])
        else if r.content_length = some 0 ∨ r.status = 204 then
          (.ok none, tr ++ [.httpReq])
        else (.ok (some r.json), tr ++ [.httpReq])

/-- Outcome of one device offset PATCH issued through `_request`. -/
inductive WriteOutcome where
  | ok : WriteOutcome
  | err : String → WriteOutcome
deriving Repr, DecidableEq

/-- `set_single_offset` inside `set_multiple_device_temperature_offsets`
(api.py lines 446-457): any exception is caught and reported as this entry's
result string. -/
def set_single_offset (outcome : String → ℚ → WriteOutcome) (serial : String)
    (offset : ℚ) : String × String :=
  match outcome serial offset with
  | .ok => (serial, "success")
  | .err m => (serial, "error: " ++ m)

/-- `TadoXApiError` raised before any network call when the home id is unset. -/
inductive TadoXApiErr where
  | apiError : String → TadoXApiErr
deriving Repr, DecidableEq

/-- `set_multiple_device_temperature_offsets` (api.py lines 425-471). The
per-device writes run under `asyncio.gather`, which preserves task order;
each task catches its own exceptions and returns a `(serial, status)` tuple,
so the `isinstance(result, Exception)` branch of the collection loop is
unreachable. `outcome` abstracts the per-device `_request` behaviour. -/
def set_multiple_device_temperature_offsets (home_id : Option Int)
    (outcome : String → ℚ → WriteOutcome) (offsets : List (String × ℚ)) :
    Except TadoXApiErr (List (String × String)) :=
  if otruthy home_id = false then .error (.apiError "Home ID not set")
  else
    let task_results := offsets.map (fun p => set_single_offset outcome p.1 p.2)
    let results := task_results.foldl (fun m r => omInsert m r.1 r.2) []
    .ok results

/-- A reference-sensor reading as seen by `_auto_sync_temperature_offsets`
(coordinator.py lines 402-413): entity missing, state `unknown`/`unavailable`,
a state string that `float()` rejects, or a parsed temperature. -/
inductive SensorReading where
  | missing : SensorReading
  | unavailable : SensorReading
  | invalid : SensorReading
  | val : ℚ → SensorReading
deriving Repr, DecidableEq

/-- Per-mapping body of `_auto_sync_temperature_offsets` (coordinator.py lines
386-424), after the host-registry resolution of the mapping to a device serial
(spec section 9's `resolveDeviceSerial` abstraction): look the device up in the
snapshot, require a raw measurement and a usable reference reading, compute the
rounded and clamped desired offset, and queue it only past the hysteresis. -/
def autoSyncMapping (data : TadoXData) (hysteresis : ℚ) (serial : String)
    (reading : SensorReading) : Option (String × ℚ) :=
  match omLookup data.devices serial with
  | none => none
  | some dev =>
    match dev.temperature_measured with
    | none => none
    | some valve_temp =>
      let current_offset := dev.temperature_offset
      match reading with
      | .missing => none
      | .unavailable => none
      | .invalid => none
      | .val room_temp =>
        let calculated_offset := pyRound1 (room_temp - valve_temp)
        let new_offset := max (-3) (min 3 calculated_offset)
        let offset_delta := |new_offset - current_offset|
        if offset_delta > hysteresis then some (serial, new_offset) else none

/-- One entry of the YAML room mapping list. -/
structure RoomConfig where
  offset_entity : Option String
  temperature_sensor : Option String
deriving Repr, DecidableEq

/-- Attribute names assigned on `self` by
`TadoXDataUpdateCoordinator.__init__` (coordinator.py lines 93-103); no other
method of the class or of the repository assigns further attributes used by
the update path. -/
def coordinatorAttrNames : List String :=
  ["api", "home_id", "home_name", "geofencing_enabled", "min_temp", "max_temp",
   "auto_offset_sync", "room_configs", "offset_hysteresis", "_pending_offset_updates"]

/-- Coordinator configuration as stored by `__init__`. -/
structure Coordinator where
  auto_offset_sync : Bool
  room_configs : List RoomConfig
  offset_hysteresis : ℚ
deriving Repr, DecidableEq

/-- Result of one `_async_update_data` call: the new snapshot, or the
`UpdateFailed` raised by the `except` clauses at coordinator.py lines 332-338. -/
inductive CycleOutcome where
  | snapshot : TadoXData → CycleOutcome
  | updateFailed : String → CycleOutcome
deriving Repr, DecidableEq

/-- Tail of `_async_update_data` after the snapshot is built (coordinator.py
lines 326-338): `if self.auto_offset_sync and self.offset_mappings:` under the
surrounding `try`. Reading `self.offset_mappings` raises `AttributeError`
whenever the name was never assigned, and `except Exception` (line 336) turns
that into `UpdateFailed`. The branch that would run
`_auto_sync_temperature_offsets` is kept for the counterfactual in which the
attribute existed. -/
def updateDataTail (c : Coordinator) (data : TadoXData) : CycleOutcome :=
  if c.auto_offset_sync then
    if coordinatorAttrNames.contains "offset_mappings" then
      CycleOutcome.snapshot data
    else
      CycleOutcome.updateFailed "Unexpected error: AttributeError: offset_mappings"
  else
    CycleOutcome.snapshot data

/-- Internal-consistency predicate of claim C5, as stated: every room-embedded
device is the flat index's entry at its serial, and every flat-index device
with a room id belongs to that room's device list. -/
def snapshotConsistent (d : TadoXData) : Prop :=
  (∀ rid room, omLookup d.rooms rid = some room →
    ∀ dev ∈ room.devices, omLookup d.devices dev.serial_number = some dev) ∧
  (∀ s dev, omLookup d.devices s = some dev →
    ∀ rid, dev.room_id = some rid →
      ∃ room, omLookup d.rooms rid = some room ∧ dev ∈ room.devices)

/-- Serial key of a raw device payload. -/
def serialOf (dd : JValue) : String := getStrD dd "serialNumber" ""

/-- Key 0 never occurs among the rooms built by a cycle (room ids are truthy). -/
def RoomsNoZero (rooms : List (Int × TadoXRoom)) : Prop :=
  omLookup rooms 0 = none

/-- Every flat-index entry sits under its own serial key. -/
def FlatKeyMatches (flat : List (String × TadoXDevice)) : Prop :=
  ∀ s dev, omLookup flat s = some dev → dev.serial_number = s

/-- During phase 1, a flat entry's serial always stems from its room's payload
device list in `room_devices_map`. -/
def FlatSerialSource (rmap : List (Int × List JValue))
    (flat : List (String × TadoXDevice)) : Prop :=
  ∀ s dev, omLookup flat s = some dev → ∀ rid, dev.room_id = some rid →
    s ∈ ((omLookup rmap rid).getD []).map serialOf

/-- Claim C5's second direction, restricted to room ids present in the
snapshot: any indexed device whose room id names a built room is in that
room's device list. -/
def FlatRoomsAligned (rooms : List (Int × TadoXRoom))
    (flat : List (String × TadoXDevice)) : Prop :=
  ∀ s dev, omLookup flat s = some dev → ∀ rid, dev.room_id = some rid →
    ∀ room, omLookup rooms rid = some room → dev ∈ room.devices

/-- Claim C5's first direction at key level: every room-embedded device has an
entry in the flat index under its serial. -/
def RoomsCovered (rooms : List (Int × TadoXRoom))
    (flat : List (String × TadoXDevice)) : Prop :=
  ∀ rid room, omLookup rooms rid = some room →
    ∀ dev ∈ room.devices, (omLookup flat dev.serial_number).isSome

/-- Invariant carried through the room-state loop. -/
def Phase1Inv (rmap : List (Int × List JValue))
    (st : List (Int × TadoXRoom) × List (String × TadoXDevice)) : Prop :=
  RoomsNoZero st.1 ∧ FlatKeyMatches st.2 ∧ FlatSerialSource rmap st.2 ∧
  FlatRoomsAligned st.1 st.2 ∧ RoomsCovered st.1 st.2

/-- Invariant carried through the other-devices loop. -/
def Phase2Inv (st : OtherState) : Prop :=
  RoomsNoZero st.rooms ∧ FlatRoomsAligned st.rooms st.devices ∧
  RoomsCovered st.rooms st.devices

/-- Counterexample payload for C5: one other device whose raw room id (5)
names no room built this cycle. -/
def c5CexPayload : JValue :=
  .obj [("otherDevices", .arr [.obj [("serialNumber", .str "X"),
    ("type", .str "BU01"), ("roomId", .num 5)]])]

/-- The snapshot normalized from `c5CexPayload` with no rooms. -/
def c5CexData : TadoXData := buildData 1 "Home" none [] c5CexPayload

/-- Rooms for the C6 example: room 2 holds one device, room 7 three. -/
def c6ExampleRooms : List (Int × TadoXRoom) :=
  [(2, { room_id := 2, name := "Small"
         devices := [{ serial_number := "V1", device_type := "VA04"
                       firmware_version := "1.0", connection_state := "CONNECTED" }] }),
   (7, { room_id := 7, name := "Living"
         devices := [{ serial_number := "V2", device_type := "VA04"
                       firmware_version := "1.0", connection_state := "CONNECTED" },
                     { serial_number := "V3", device_type := "VA04"
                       firmware_version := "1.0", connection_state := "CONNECTED" },
                     { serial_number := "S1", device_type := "SU04"
                       firmware_version := "1.0", connection_state := "CONNECTED" }] })]

/-- A TR04 wall-thermostat other-device payload with no reported room id. -/
def c6ExamplePayload : JValue :=
  .obj [("serialNumber", .str "T1"), ("type", .str "TR04")]

theorem omLookup_insert_self {α β : Type} [DecidableEq α]
    (m : List (α × β)) (k : α) (v : β) :
    omLookup (omInsert m k v) k = some v := by
  induction m with
  | nil => simp [omInsert, omLookup]
  | cons p rest ih =>
    obtain ⟨a, b⟩ := p
    by_cases h : a = k
    · simp [omInsert, h, omLookup]
    · simp [omInsert, h, omLookup, ih]

theorem omLookup_insert_ne {α β : Type} [DecidableEq α]
    (m : List (α × β)) (k : α) (v : β) (k' : α) (h : k ≠ k') :
    omLookup (omInsert m k v) k' = omLookup m k' := by
  induction m with
  | nil => simp [omInsert, omLookup, h]
  | cons p rest ih =>
    obtain ⟨a, b⟩ := p
    by_cases ha : a = k
    · subst ha
      simp [omInsert, omLookup, h]
    · simp [omInsert, ha, omLookup, ih]

theorem omLookup_insert_isSome {α β : Type} [DecidableEq α]
    (m : List (α × β)) (k : α) (v : β) (k' : α)
    (h : (omLookup m k').isSome) :
    (omLookup (omInsert m k v) k').isSome := by
  by_cases hk : k = k'
  · subst hk
    rw [omLookup_insert_self]
    rfl
  · rw [omLookup_insert_ne m k v k' hk]
    exact h

theorem omLookup_isSome_of_mem {α β : Type} [DecidableEq α]
    (m : List (α × β)) (k : α) (v : β) (h : (k, v) ∈ m) :
    (omLookup m k).isSome := by
  induction m with
  | nil => cases h
  | cons p rest ih =>
    obtain ⟨a, b⟩ := p
    rcases List.mem_cons.mp h with heq | hmem
    · cases heq
      simp [omLookup]
    · by_cases ha : a = k
      · simp [omLookup, ha]
      · simp [omLookup, ha]
        exact ih hmem

/-- C1: the coordinator's update guard at coordinator.py line 327 reads
`self.offset_mappings`, a name no code of the repository ever assigns
(`__init__` stores the mappings as `room_configs`), so whenever auto offset
sync is enabled the cycle raises `AttributeError`, is caught by the
`except Exception` clause, and re-raised as `UpdateFailed` — the cycle never
reaches the offset-sync controller and never returns the snapshot. -/
theorem c1_auto_sync_breaks_cycle (c : Coordinator) (data : TadoXData)
    (hauto : c.auto_offset_sync = true) :
    updateDataTail c data =
      CycleOutcome.updateFailed "Unexpected error: AttributeError: offset_mappings" ∧
    ∀ d, updateDataTail c data ≠ CycleOutcome.snapshot d := by
  have hattr : "offset_mappings" ∉ coordinatorAttrNames := by decide
  constructor
  · simp [updateDataTail, hauto, hattr]
  · intro d h
    rw [updateDataTail] at h
    simp [hauto, hattr] at h

/-- A concrete failing cycle for C1: auto-sync enabled with one configured
room mapping still ends in `UpdateFailed`. -/
theorem c1_auto_sync_breaks_cycle_witness :
    updateDataTail
      { auto_offset_sync := true
        room_configs := [{ offset_entity := some "number.living_offset"
                           temperature_sensor := some "sensor.living_temp" }]
        offset_hysteresis := 3/10 }
      { home_id := 1, home_name := "Home" } =
    CycleOutcome.updateFailed "Unexpected error: AttributeError: offset_mappings" :=
  (c1_auto_sync_breaks_cycle
    { auto_offset_sync := true
      room_configs := [{ offset_entity := some "number.living_offset"
                         temperature_sensor := some "sensor.living_temp" }]
      offset_hysteresis := 3/10 }
    { home_id := 1, home_name := "Home" } rfl).1

/-- C4: for a configured mapping whose device is in the snapshot with a raw
measurement and whose reference sensor yields a temperature, the controller's
desired offset is `round(reference - measured, 1)` clamped into the range
from -3.0 to 3.0, and a write is queued exactly when the desired offset
differs from the current offset by more than the hysteresis. -/
theorem c4_offset_computation (data : TadoXData) (hysteresis : ℚ)
    (serial : String) (dev : TadoXDevice) (vt rt : ℚ)
    (hdev : omLookup data.devices serial = some dev)
    (hmeas : dev.temperature_measured = some vt) :
    (-3 ≤ max (-3) (min 3 (pyRound1 (rt - vt))) ∧
      max (-3) (min 3 (pyRound1 (rt - vt))) ≤ 3) ∧
    (autoSyncMapping data hysteresis serial (.val rt) =
        some (serial, max (-3) (min 3 (pyRound1 (rt - vt)))) ↔
      |max (-3) (min 3 (pyRound1 (rt - vt))) - dev.temperature_offset| > hysteresis) ∧
    (autoSyncMapping data hysteresis serial (.val rt) = none ↔
      ¬ |max (-3) (min 3 (pyRound1 (rt - vt))) - dev.temperature_offset| > hysteresis) := by
  refine ⟨⟨le_max_left _ _, max_le (by norm_num) (min_le_left _ _)⟩, ?_, ?_⟩ <;>
    by_cases hgt : |max (-3) (min 3 (pyRound1 (rt - vt))) - dev.temperature_offset| > hysteresis <;>
    simp [autoSyncMapping, hdev, hmeas, hgt]

/-- The spec's clamping example for C4: reference 30.0, measured 20.0, current
offset 0.0, hysteresis 0.3 queues an offset of exactly 3.0. -/
theorem c4_offset_computation_witness :
    autoSyncMapping
      { home_id := 1, home_name := "Home"
        devices := [("VA1", { serial_number := "VA1", device_type := "VA04"
                              firmware_version := "1.0", connection_state := "CONNECTED"
                              temperature_measured := some 20, temperature_offset := 0 })] }
      (3/10) "VA1" (.val 30) = some ("VA1", 3) := by
  have h := c4_offset_computation
    { home_id := 1, home_name := "Home"
      devices := [("VA1", { serial_number := "VA1", device_type := "VA04"
                            firmware_version := "1.0", connection_state := "CONNECTED"
                            temperature_measured := some 20, temperature_offset := 0 })] }
    (3/10) "VA1"
    { serial_number := "VA1", device_type := "VA04"
      firmware_version := "1.0", connection_state := "CONNECTED"
      temperature_measured := some 20, temperature_offset := 0 }
    20 30 rfl rfl
  have h3 : max (-3 : ℚ) (min 3 (pyRound1 ((30 : ℚ) - 20))) = 3 := by
    norm_num [pyRound1, pyRoundHalfEven]
  rw [h3] at h
  exact h.2.1.mpr (by norm_num)

/-- C7: normalization of a room-state payload is absent-safe — whenever one of
the nested optional sub-objects is missing or null, the room is still built
(no exception) and the fields fed from that sub-object take their defaults; in
particular a payload without `sensorDataPoints` yields no current temperature. -/
theorem c7_absent_safe_normalization (rd : JValue) (rid : Int)
    (hid : roomIdOf rd = some rid) :
    (∃ room, normalizeRoom rd = some room) ∧
    (∀ room, normalizeRoom rd = some room →
      (rd.get "sensorDataPoints" = .null →
        room.current_temperature = none ∧ room.humidity = none) ∧
      (rd.get "setting" = .null →
        room.target_temperature = none ∧ room.power = "OFF") ∧
      (rd.get "manualControlTermination" = .null →
        room.manual_control_active = false ∧
        room.manual_control_remaining_seconds = none ∧
        room.manual_control_type = none) ∧
      (rd.get "nextScheduleChange" = .null →
        room.next_schedule_change = none ∧ room.next_schedule_temperature = none) ∧
      (rd.get "heatingPower" = .null → room.heating_power = 0) ∧
      (rd.get "connection" = .null → room.connection_state = "DISCONNECTED")) := by
  constructor
  · rw [normalizeRoom, hid]
    exact ⟨_, rfl⟩
  · intro room h
    rw [normalizeRoom, hid] at h
    have hr := (Option.some.injEq _ _).mp h
    subst hr
    refine ⟨fun hk => ?_, fun hk => ?_, fun hk => ?_, fun hk => ?_, fun hk => ?_, fun hk => ?_⟩
    · exact ⟨by rw [hk]; rfl, by rw [hk]; rfl⟩
    · exact ⟨by rw [hk]; rfl, by rw [hk]; rfl⟩
    · exact ⟨by rw [hk]; rfl, by rw [hk]; rfl, by rw [hk]; rfl⟩
    · exact ⟨by rw [hk]; rfl, by rw [hk]; rfl⟩
    · rw [hk]
      rfl
    · rw [hk]
      rfl

/-- The spec's C7 example: a payload with an id and no `sensorDataPoints` at
all yields a room with `current_temperature = none`, without failing. -/
theorem c7_absent_safe_normalization_witness :
    ∃ room, normalizeRoom (.obj [("id", .num 3), ("name", .str "Kitchen")]) = some room ∧
      room.current_temperature = none := by
  have h := c7_absent_safe_normalization (.obj [("id", .num 3), ("name", .str "Kitchen")]) 3 rfl
  obtain ⟨room, hroom⟩ := h.1
  exact ⟨room, hroom, ((h.2 room hroom).1 rfl).1⟩

/-- C9: `refresh_access_token` fails with `TadoXAuthError` when no refresh
token is held, on a network error, and on a non-200 status; on success the
stored expiry is aware UTC now plus the server lifetime (600 seconds when
absent), the access token is replaced, and the refresh token is replaced only
when the response carries one, otherwise retained. -/
theorem c9_refresh_token_lifecycle (st : TokenSt) (utcNow : Int) :
    (st.refresh_token = none → ∀ env, refresh_access_token st env utcNow =
      .error (.authError "No refresh token available")) ∧
    (∀ rt, st.refresh_token = some rt →
      (∀ m, refresh_access_token st (.netErr m) utcNow =
        .error (.authError ("Network error during token refresh: " ++ m))) ∧
      (∀ status data, status ≠ 200 → refresh_access_token st (.resp status data) utcNow =
        .error (.authError ("Failed to refresh token: " ++ toString status))) ∧
      (∀ data st', refresh_access_token st (.resp 200 data) utcNow = .ok st' →
        st'.access_token = some data.access_token ∧
        st'.token_expiry = some ⟨utcNow + data.expires_in.getD 600, true⟩ ∧
        (data.refresh_token = none → st'.refresh_token = st.refresh_token) ∧
        (∀ nrt, data.refresh_token = some nrt → st'.refresh_token = some nrt))) := by
  constructor
  · intro hrt env
    cases env <;> simp [refresh_access_token, hrt]
  · intro rt hrt
    refine ⟨fun m => by simp [refresh_access_token, hrt], ?_, ?_⟩
    · intro status data hst
      simp [refresh_access_token, hrt, hst]
    · intro data st' h
      rw [refresh_access_token, hrt] at h
      simp only [if_neg (by norm_num : ¬(200 : Nat) ≠ 200)] at h
      have h' := (Except.ok.injEq _ _).mp h
      subst h'
      refine ⟨rfl, rfl, fun hnone => ?_, fun nrt hsome => ?_⟩
      · rw [hrt, hnone]
        rfl
      · rw [hsome]
        rfl

/-- A concrete C9 success: with a stored refresh token "r1" and a 200 response
that carries no new refresh token and no `expires_in`, the access token is
replaced and the previous refresh token "r1" is retained. -/
theorem c9_refresh_token_lifecycle_witness :
    TokenSt.access_token
      { access_token := some "a2", refresh_token := some "r1"
        token_expiry := some ⟨1600, true⟩ } = some "a2" ∧
    TokenSt.refresh_token
      { access_token := some "a2", refresh_token := some "r1"
        token_expiry := some ⟨1600, true⟩ } =
      TokenSt.refresh_token
        { access_token := some "a1", refresh_token := some "r1", token_expiry := none } := by
  have h := (c9_refresh_token_lifecycle
    { access_token := some "a1", refresh_token := some "r1", token_expiry := none } 1000).2 "r1" rfl
  have hok := h.2.2 { access_token := "a2" }
    { access_token := some "a2", refresh_token := some "r1"
      token_expiry := some ⟨1600, true⟩ } rfl
  exact ⟨hok.1, hok.2.2.1 rfl⟩

/-- C10: every successful `poll_for_token` run stores the response's
`refresh_token` field exactly as delivered — absent means the credential is
left with no refresh token, regardless of what was held before — and the
expiry is naive local now plus `expires_in` (default 600), not aware UTC. -/
theorem c10_poll_stores_raw_refresh (st : TokenSt) (iters : List PollIter)
    (st' : TokenSt) (h : poll_for_token st iters = .ok (st', true)) :
    ∃ data localNow,
      st'.refresh_token = data.refresh_token ∧
      st'.access_token = some data.access_token ∧
      st'.token_expiry = some ⟨localNow + data.expires_in.getD 600, false⟩ ∧
      ∃ err errd, PollIter.resp 200 data err errd localNow ∈ iters := by
  induction iters with
  | nil =>
    rw [poll_for_token] at h
    simp at h
  | cons it rest ih =>
    cases it with
    | netErr m =>
      rw [poll_for_token] at h
      obtain ⟨data, t, h1, h2, h3, err, errd, hmem⟩ := ih h
      exact ⟨data, t, h1, h2, h3, err, errd, List.mem_cons_of_mem _ hmem⟩
    | resp status data err errd localNow =>
      rw [poll_for_token] at h
      by_cases hst : status = 200
      · rw [if_pos hst] at h
        have h' := (Except.ok.injEq _ _).mp h
        have hstp : st' = { access_token := some data.access_token
                            refresh_token := data.refresh_token
                            token_expiry := some ⟨localNow + data.expires_in.getD 600, false⟩ } :=
          ((Prod.mk.injEq _ _ _ _).mp h').1.symm
        subst hstp
        exact ⟨data, localNow, rfl, rfl, rfl, err, errd, by rw [hst]; exact List.mem_cons_self _ _⟩
      · rw [if_neg hst] at h
        by_cases hpend : err = some "authorization_pending"
        · rw [if_pos hpend] at h
          obtain ⟨data', t, h1, h2, h3, err', errd', hmem⟩ := ih h
          exact ⟨data', t, h1, h2, h3, err', errd', List.mem_cons_of_mem _ hmem⟩
        · rw [if_neg hpend] at h
          cases h

/-- A concrete C10 run: one pending iteration, then a 200 with no
`refresh_token` field — the previously held "old" refresh token is discarded
and the expiry is naive (local clock 1000 + default 600). -/
theorem c10_poll_stores_raw_refresh_witness :
    ∃ data localNow,
      (TokenSt.refresh_token
        { access_token := some "at2", refresh_token := none
          token_expiry := some ⟨1600, false⟩ }) = data.refresh_token ∧
      (TokenSt.access_token
        { access_token := some "at2", refresh_token := none
          token_expiry := some ⟨1600, false⟩ }) = some data.access_token ∧
      (TokenSt.token_expiry
        { access_token := some "at2", refresh_token := none
          token_expiry := some ⟨1600, false⟩ }) =
          some ⟨localNow + data.expires_in.getD 600, false⟩ ∧
      ∃ err errd, PollIter.resp 200 data err errd localNow ∈
        [PollIter.resp 400 { access_token := "" } (some "authorization_pending") none 990,
         PollIter.resp 200 { access_token := "at2" } none none 1000] :=
  c10_poll_stores_raw_refresh
    { access_token := some "old_at", refresh_token := some "old", token_expiry := none }
    [PollIter.resp 400 { access_token := "" } (some "authorization_pending") none 990,
     PollIter.resp 200 { access_token := "at2" } none none 1000]
    { access_token := some "at2", refresh_token := none, token_expiry := some ⟨1600, false⟩ }
    rfl

/-- C2: an authenticated request (valid, non-near-expiry token) that receives
HTTP 401 performs exactly one token refresh and exactly one retried request,
in that order, and nothing else; when the retry comes back with any non-200
status the call surfaces `TadoXApiError` carrying that status and body text,
with no further refresh or retry. -/
theorem c2_single_refresh_single_retry (st : TokenSt) (env : RequestEnv)
    (utcNow localNow : Int) (r rr : HttpResponse) (st2 : TokenSt)
    (hacc : st.access_token.isSome)
    (hfresh : needsRefreshCheck st utcNow localNow = false)
    (hfirst : env.first = .resp r) (h401 : r.status = 401)
    (hrefresh : refresh_access_token st env.refreshEnv utcNow = .ok st2)
    (hretry : env.retry = .resp rr) :
    (tadoRequest st env utcNow localNow).2 = [.httpReq, .tokenRefresh, .httpReq] ∧
    (rr.status ≠ 200 →
      (tadoRequest st env utcNow localNow).1 = .error (.api rr.status rr.text)) := by
  obtain ⟨a, ha⟩ := Option.isSome_iff_exists.mp hacc
  rw [tadoRequest, ha]
  simp only [hfresh, if_false, hfirst, h401, if_pos rfl, hrefresh, hretry]
  constructor
  · by_cases h200 : rr.status ≠ 200
    · simp [hrefresh, h200]
    · simp only [hrefresh, if_neg h200]
      by_cases hcl : rr.content_length = some 0 <;> simp [hrefresh, hcl]
  · intro h200
    simp [hrefresh, h200]

/-- A concrete C2 run: first response 401, refresh succeeds, retry 401 again —
trace is exactly one request, one refresh, one retried request, and the result
is `TadoXApiError` with the retry's status and body text. -/
theorem c2_single_refresh_single_retry_witness :
    (tadoRequest
      { access_token := some "tok", refresh_token := some "r1", token_expiry := none }
      { first := .resp { status := 401, text := "unauthorized", content_length := none
                         json := .null }
        refreshEnv := .resp 200 { access_token := "tok2" }
        retry := .resp { status := 401, text := "still unauthorized", content_length := none
                         json := .null } }
      0 0).2 = [.httpReq, .tokenRefresh, .httpReq] ∧
    (tadoRequest
      { access_token := some "tok", refresh_token := some "r1", token_expiry := none }
      { first := .resp { status := 401, text := "unauthorized", content_length := none
                         json := .null }
        refreshEnv := .resp 200 { access_token := "tok2" }
        retry := .resp { status := 401, text := "still unauthorized", content_length := none
                         json := .null } }
      0 0).1 = .error (.api 401 "still unauthorized") := by
  have h := c2_single_refresh_single_retry
    { access_token := some "tok", refresh_token := some "r1", token_expiry := none }
    { first := .resp { status := 401, text := "unauthorized", content_length := none
                       json := .null }
      refreshEnv := .resp 200 { access_token := "tok2" }
      retry := .resp { status := 401, text := "still unauthorized", content_length := none
                       json := .null } }
    0 0
    { status := 401, text := "unauthorized", content_length := none, json := .null }
    { status := 401, text := "still unauthorized", content_length := none, json := .null }
    { access_token := some "tok2", refresh_token := some "r1"
      token_expiry := some ⟨600, true⟩ }
    rfl rfl rfl rfl rfl rfl
  exact ⟨h.1, h.2 (by norm_num)⟩

/-- C8 as stated is false: on the post-401 retry path only status 200 counts
as success (api.py line 239), so a retry response with status 204 — even with
zero content length — raises `TadoXApiError` instead of yielding null. -/
theorem c8_null_on_retry_counterexample :
    (tadoRequest
      { access_token := some "tok", refresh_token := some "r1", token_expiry := none }
      { first := .resp { status := 401, text := "unauthorized", content_length := none
                         json := .null }
        refreshEnv := .resp 200 { access_token := "tok2" }
        retry := .resp { status := 204, text := "", content_length := some 0
                         json := .null } }
      0 0).1 = .error (.api 204 "") ∧
    ∀ v, (tadoRequest
      { access_token := some "tok", refresh_token := some "r1", token_expiry := none }
      { first := .resp { status := 401, text := "unauthorized", content_length := none
                         json := .null }
        refreshEnv := .resp 200 { access_token := "tok2" }
        retry := .resp { status := 204, text := "", content_length := some 0
                         json := .null } }
      0 0).1 ≠ .ok v := by
  constructor
  · rfl
  · intro v h
    rw [show (tadoRequest
      { access_token := some "tok", refresh_token := some "r1", token_expiry := none }
      { first := .resp { status := 401, text := "unauthorized", content_length := none
                         json := .null }
        refreshEnv := .resp 200 { access_token := "tok2" }
        retry := .resp { status := 204, text := "", content_length := some 0
                         json := .null } }
      0 0).1 = .error (.api 204 "") from rfl] at h
    exact Except.noConfusion h

/-- C8 amended: for an authenticated request (valid, non-near-expiry token),
on the first response a status of 204, or a status of 200 with zero content
length, yields null; on the post-401 retry path only a 200 yields null (with
zero content length), while a 204 on retry raises `TadoXApiError`. -/
theorem c8_null_body_handling (st : TokenSt) (env : RequestEnv)
    (utcNow localNow : Int)
    (hacc : st.access_token.isSome)
    (hfresh : needsRefreshCheck st utcNow localNow = false) :
    (∀ r, env.first = .resp r → r.status = 204 →
      (tadoRequest st env utcNow localNow).1 = .ok none) ∧
    (∀ r, env.first = .resp r → r.status = 200 → r.content_length = some 0 →
      (tadoRequest st env utcNow localNow).1 = .ok none) ∧
    (∀ r rr st2, env.first = .resp r → r.status = 401 →
      refresh_access_token st env.refreshEnv utcNow = .ok st2 → env.retry = .resp rr →
      (rr.status = 200 → rr.content_length = some 0 →
        (tadoRequest st env utcNow localNow).1 = .ok none) ∧
      (rr.status = 204 →
        (tadoRequest st env utcNow localNow).1 = .error (.api 204 rr.text))) := by
  obtain ⟨a, ha⟩ := Option.isSome_iff_exists.mp hacc
  refine ⟨?_, ?_, ?_⟩
  · intro r hfirst h204
    rw [tadoRequest, ha]
    simp [hfresh, hfirst, h204]
  · intro r hfirst h200 hcl
    rw [tadoRequest, ha]
    simp [hfresh, hfirst, h200, hcl]
  · intro r rr st2 hfirst h401 hrefresh hretry
    constructor
    · intro h200 hcl
      rw [tadoRequest, ha]
      simp [hfresh, hfirst, h401, hrefresh, hretry, h200, hcl]
    · intro h204
      rw [tadoRequest, ha]
      simp [hfresh, hfirst, h401, hrefresh, hretry, h204]

/-- Concrete C8 amended runs: a first response of 204 yields null, and a
first response of 200 with zero content length yields null. -/
theorem c8_null_body_handling_witness :
    (tadoRequest
      { access_token := some "tok", refresh_token := some "r1", token_expiry := none }
      { first := .resp { status := 204, text := "", content_length := none, json := .null }
        refreshEnv := .netErr "unused"
        retry := .netErr "unused" }
      0 0).1 = .ok none ∧
    (tadoRequest
      { access_token := some "tok", refresh_token := some "r1", token_expiry := none }
      { first := .resp { status := 200, text := "", content_length := some 0, json := .null }
        refreshEnv := .netErr "unused"
        retry := .netErr "unused" }
      0 0).1 = .ok none := by
  constructor
  · exact (c8_null_body_handling
      { access_token := some "tok", refresh_token := some "r1", token_expiry := none }
      { first := .resp { status := 204, text := "", content_length := none, json := .null }
        refreshEnv := .netErr "unused"
        retry := .netErr "unused" }
      0 0 rfl rfl).1
      { status := 204, text := "", content_length := none, json := .null } rfl rfl
  · exact (c8_null_body_handling
      { access_token := some "tok", refresh_token := some "r1", token_expiry := none }
      { first := .resp { status := 200, text := "", content_length := some 0, json := .null }
        refreshEnv := .netErr "unused"
        retry := .netErr "unused" }
      0 0 rfl rfl).2.1
      { status := 200, text := "", content_length := some 0, json := .null } rfl rfl rfl

theorem omLookup_foldl_insert_not_mem {α β : Type} [DecidableEq α]
    (R : List (α × β)) (m : List (α × β)) (s : α) (h : s ∉ R.map Prod.fst) :
    omLookup (R.foldl (fun m r => omInsert m r.1 r.2) m) s = omLookup m s := by
  induction R generalizing m with
  | nil => rfl
  | cons r rest ih =>
    simp only [List.map_cons, List.mem_cons, not_or] at h
    rw [List.foldl_cons, ih _ h.2]
    exact omLookup_insert_ne m r.1 r.2 s (fun he => h.1 he.symm)

theorem omLookup_foldl_insert_mem {α β : Type} [DecidableEq α]
    (R : List (α × β)) (m : List (α × β)) (s : α) (v : β)
    (hnd : (R.map Prod.fst).Nodup) (hmem : (s, v) ∈ R) :
    omLookup (R.foldl (fun m r => omInsert m r.1 r.2) m) s = some v := by
  induction R generalizing m with
  | nil => cases hmem
  | cons r rest ih =>
    rw [List.foldl_cons]
    rcases List.mem_cons.mp hmem with heq | hmem'
    · subst heq
      have hnot : s ∉ rest.map Prod.fst := (List.nodup_cons.mp hnd).1
      rw [omLookup_foldl_insert_not_mem rest _ s hnot]
      exact omLookup_insert_self m s v
    · exact ih _ (List.nodup_cons.mp hnd).2 hmem'

theorem fst_set_single_offset (outcome : String → ℚ → WriteOutcome)
    (serial : String) (offset : ℚ) :
    (set_single_offset outcome serial offset).1 = serial := by
  cases h : outcome serial offset <;> simp [set_single_offset, h]

theorem set_single_offset_eq (outcome : String → ℚ → WriteOutcome)
    (serial : String) (offset : ℚ) :
    set_single_offset outcome serial offset =
      (serial, match outcome serial offset with
        | .ok => "success"
        | .err m => "error: " ++ m) := by
  cases h : outcome serial offset <;> simp [set_single_offset, h]

/-- C3: with the home id set, the batch offset call never raises; its result
has an entry for every input serial whose value is "success" exactly when that
device's write succeeded and an error string built from the caught exception
otherwise; and an entry's value depends only on its own device's write
outcome, not on any sibling's. -/
theorem c3_batch_offsets_isolated (h : Int) (outcome : String → ℚ → WriteOutcome)
    (offsets : List (String × ℚ)) (hh : h ≠ 0)
    (hnd : (offsets.map Prod.fst).Nodup) :
    ∃ results,
      set_multiple_device_temperature_offsets (some h) outcome offsets = .ok results ∧
      (∀ s o, (s, o) ∈ offsets →
        omLookup results s = some (match outcome s o with
          | .ok => "success"
          | .err m => "error: " ++ m)) ∧
      (∀ s o, (s, o) ∈ offsets →
        ∀ outcome2 results2, outcome2 s o = outcome s o →
          set_multiple_device_temperature_offsets (some h) outcome2 offsets = .ok results2 →
          omLookup results2 s = omLookup results s) := by
  have hot : otruthy (some h) = true := by simp [otruthy, hh]
  have hrun : ∀ oc : String → ℚ → WriteOutcome,
      set_multiple_device_temperature_offsets (some h) oc offsets =
        .ok ((offsets.map (fun p => set_single_offset oc p.1 p.2)).foldl
          (fun m r => omInsert m r.1 r.2) []) := by
    intro oc
    rw [set_multiple_device_temperature_offsets, hot]
    simp
  have hkeys : ∀ oc : String → ℚ → WriteOutcome,
      (offsets.map (fun p => set_single_offset oc p.1 p.2)).map Prod.fst =
        offsets.map Prod.fst := by
    intro oc
    rw [List.map_map]
    exact List.map_congr_left (fun p _ => fst_set_single_offset oc p.1 p.2)
  have hentry : ∀ (oc : String → ℚ → WriteOutcome) s o, (s, o) ∈ offsets →
      omLookup ((offsets.map (fun p => set_single_offset oc p.1 p.2)).foldl
          (fun m r => omInsert m r.1 r.2) []) s =
        some (match oc s o with | .ok => "success" | .err m => "error: " ++ m) := by
    intro oc s o hmem
    have hmem' : (s, (match oc s o with | .ok => "success" | .err m => "error: " ++ m)) ∈
        offsets.map (fun p => set_single_offset oc p.1 p.2) := by
      have hm := List.mem_map_of_mem (fun p => set_single_offset oc p.1 p.2) hmem
      simp only [] at hm
      rw [set_single_offset_eq oc s o] at hm
      exact hm
    exact omLookup_foldl_insert_mem _ [] s _ (by rw [hkeys oc]; exact hnd) hmem'
  refine ⟨_, hrun outcome, fun s o hmem => hentry outcome s o hmem, ?_⟩
  intro s o hmem outcome2 results2 hsame hres2
  have h2 := hrun outcome2
  rw [hres2] at h2
  have hr2 := (Except.ok.injEq _ _).mp h2
  rw [hr2, hentry outcome2 s o hmem, hentry outcome s o hmem, hsame]

/-- The spec's C3 example: offsets for A and B where B's write fails yield
exactly success for A and the error string for B. -/
theorem c3_batch_offsets_isolated_witness :
    ∃ results,
      set_multiple_device_temperature_offsets (some 1)
        (fun s _ => if s = "B" then .err "boom" else .ok)
        [("A", 1), ("B", 2)] = .ok results ∧
      omLookup results "A" = some "success" ∧
      omLookup results "B" = some "error: boom" := by
  obtain ⟨results, hok, hentries, -⟩ :=
    c3_batch_offsets_isolated 1 (fun s _ => if s = "B" then .err "boom" else .ok)
      [("A", 1), ("B", 2)] (by norm_num) (by decide)
  refine ⟨results, hok, ?_, ?_⟩
  · have := hentries "A" 1 (by simp)
    simpa using this
  · have := hentries "B" 2 (by simp)
    simpa using this

theorem roomWithMostDevicesAux_spec (L : List (Int × TadoXRoom)) :
    ∀ (b : Option Int) (m : Nat),
    (roomWithMostDevicesAux (b, m) L = (b, m) ∧ ∀ p ∈ L, p.2.devices.length ≤ m) ∨
    (∃ r room pre post, L = pre ++ (r, room) :: post ∧
      roomWithMostDevicesAux (b, m) L = (some r, room.devices.length) ∧
      m < room.devices.length ∧
      (∀ p ∈ pre, p.2.devices.length < room.devices.length) ∧
      (∀ p ∈ post, p.2.devices.length ≤ room.devices.length)) := by
  induction L with
  | nil =>
    intro b m
    left
    exact ⟨rfl, by simp⟩
  | cons p rest ih =>
    intro b m
    obtain ⟨pk, proom⟩ := p
    by_cases hgt : proom.devices.length > m
    · have hstep : roomWithMostDevicesAux (b, m) ((pk, proom) :: rest) =
          roomWithMostDevicesAux (some pk, proom.devices.length) rest := by
        simp [roomWithMostDevicesAux, hgt]
      rcases ih (some pk) proom.devices.length with ⟨heq, hall⟩ |
        ⟨r, room, pre, post, hL, hres, hm, hpre, hpost⟩
      · right
        exact ⟨pk, proom, [], rest, by simp, by rw [hstep, heq], hgt, by simp, hall⟩
      · right
        refine ⟨r, room, (pk, proom) :: pre, post, by rw [hL, List.cons_append],
          by rw [hstep, hres], lt_trans hgt hm, ?_, hpost⟩
        intro q hq
        rcases List.mem_cons.mp hq with hq1 | hq2
        · cases hq1
          exact hm
        · exact hpre q hq2
    · have hstep : roomWithMostDevicesAux (b, m) ((pk, proom) :: rest) =
          roomWithMostDevicesAux (b, m) rest := by
        simp [roomWithMostDevicesAux, hgt]
      rcases ih b m with ⟨heq, hall⟩ | ⟨r, room, pre, post, hL, hres, hm, hpre, hpost⟩
      · left
        refine ⟨by rw [hstep, heq], ?_⟩
        intro q hq
        rcases List.mem_cons.mp hq with hq1 | hq2
        · cases hq1
          exact le_of_not_lt hgt
        · exact hall q hq2
      · right
        refine ⟨r, room, (pk, proom) :: pre, post, by rw [hL, List.cons_append],
          by rw [hstep, hres], hm, ?_, hpost⟩
        intro q hq
        rcases List.mem_cons.mp hq with hq1 | hq2
        · cases hq1
          exact lt_of_le_of_lt (le_of_not_lt hgt) hm
        · exact hpre q hq2

theorem roomWithMostDevices_none (rooms : List (Int × TadoXRoom))
    (h : roomWithMostDevices rooms = none) :
    ∀ p ∈ rooms, p.2.devices.length = 0 := by
  rcases roomWithMostDevicesAux_spec rooms none 0 with ⟨heq, hall⟩ |
    ⟨r, room, pre, post, hL, hres, hm, hpre, hpost⟩
  · intro p hp
    exact Nat.le_zero.mp (hall p hp)
  · rw [roomWithMostDevices, hres] at h
    cases h

theorem roomWithMostDevices_some (rooms : List (Int × TadoXRoom)) (r : Int)
    (h : roomWithMostDevices rooms = some r) :
    ∃ room pre post, rooms = pre ++ (r, room) :: post ∧
      0 < room.devices.length ∧
      (∀ p ∈ pre, p.2.devices.length < room.devices.length) ∧
      (∀ p ∈ post, p.2.devices.length ≤ room.devices.length) := by
  rcases roomWithMostDevicesAux_spec rooms none 0 with ⟨heq, hall⟩ |
    ⟨r', room, pre, post, hL, hres, hm, hpre, hpost⟩
  · rw [roomWithMostDevices, heq] at h
    cases h
  · rw [roomWithMostDevices, hres] at h
    have hr : r' = r := Option.some.inj h
    subst hr
    exact ⟨room, pre, post, hL, hm, hpre, hpost⟩

theorem otherDeviceOf_room_id (rooms : List (Int × TadoXRoom)) (rwm : Option Int)
    (dd : JValue) :
    (otherDeviceOf rooms rwm dd).room_id =
      (otherRoomAssoc rooms rwm (jint? (dd.get "roomId")) (getStrD dd "type" "")).1 := rfl

theorem otherDeviceOf_room_name (rooms : List (Int × TadoXRoom)) (rwm : Option Int)
    (dd : JValue) :
    (otherDeviceOf rooms rwm dd).room_name =
      (otherRoomAssoc rooms rwm (jint? (dd.get "roomId")) (getStrD dd "type" "")).2 := rfl

theorem processOtherDevice_parts (rwm : Option Int) (st : OtherState) (dd : JValue) :
    processOtherDevice rwm st dd =
      { rooms :=
          match (otherDeviceOf st.rooms rwm dd).room_id with
          | some i =>
            if i ≠ 0 then
              match omLookup st.rooms i with
              | some room => omInsert st.rooms i
                  { room with devices := room.devices ++ [otherDeviceOf st.rooms rwm dd] }
              | none => st.rooms
            else st.rooms
          | none => st.rooms
        devices := omInsert st.devices (otherDeviceOf st.rooms rwm dd).serial_number
          (otherDeviceOf st.rooms rwm dd)
        other_devices := st.other_devices ++ [otherDeviceOf st.rooms rwm dd] } := rfl

/-- C6: an other-device payload whose raw room id names no existing room and
whose type is the wall thermostat type TR04 is associated with the room
having the greatest device count among the rooms built this cycle (first-seen
room id wins ties, and only rooms with at least one device qualify), and is
appended to that room's device list; when no room qualifies the device is left
unassociated: no room name and no room list is touched. -/
theorem c6_thermostat_association (st : OtherState) (dd : JValue)
    (h0 : omLookup st.rooms 0 = none)
    (hraw : truthyMem st.rooms (jint? (dd.get "roomId")) = none)
    (htype : getStrD dd "type" "" = "TR04") :
    (∀ r, roomWithMostDevices st.rooms = some r →
      (otherDeviceOf st.rooms (roomWithMostDevices st.rooms) dd).room_id = some r ∧
      (∃ room pre post, st.rooms = pre ++ (r, room) :: post ∧
        0 < room.devices.length ∧
        (∀ p ∈ pre, p.2.devices.length < room.devices.length) ∧
        (∀ p ∈ post, p.2.devices.length ≤ room.devices.length)) ∧
      (∃ room', omLookup (processOtherDevice (roomWithMostDevices st.rooms) st dd).rooms r =
          some room' ∧
        otherDeviceOf st.rooms (roomWithMostDevices st.rooms) dd ∈ room'.devices)) ∧
    (roomWithMostDevices st.rooms = none →
      (otherDeviceOf st.rooms none dd).room_name = none ∧
      (processOtherDevice none st dd).rooms = st.rooms) := by
  constructor
  · intro r hr
    obtain ⟨room, pre, post, hL, hpos, hpre, hpost⟩ := roomWithMostDevices_some _ _ hr
    have hrmem : (r, room) ∈ st.rooms := by
      rw [hL]
      exact List.mem_append_right _ (List.mem_cons_self _ _)
    have hrsome : (omLookup st.rooms r).isSome := omLookup_isSome_of_mem _ _ _ hrmem
    have hrne : r ≠ 0 := by
      intro hz
      subst hz
      rw [h0] at hrsome
      cases hrsome
    have hot : otruthy (roomWithMostDevices st.rooms) = true := by
      rw [hr]
      simp [otruthy, hrne]
    have hrid : (otherDeviceOf st.rooms (roomWithMostDevices st.rooms) dd).room_id = some r := by
      rw [otherDeviceOf_room_id, htype]
      simp only [otherRoomAssoc, hraw, hot, and_true]
      simp [hr]
    refine ⟨hrid, ⟨room, pre, post, hL, hpos, hpre, hpost⟩, ?_⟩
    obtain ⟨room0, hroom0⟩ := Option.isSome_iff_exists.mp hrsome
    refine ⟨{ room0 with devices := room0.devices ++
        [otherDeviceOf st.rooms (roomWithMostDevices st.rooms) dd] }, ?_, ?_⟩
    · rw [processOtherDevice_parts]
      simp only [hrid, hroom0, if_pos hrne]
      exact omLookup_insert_self _ _ _
    · exact List.mem_append_right _ (List.mem_cons_self _ _)
  · intro hn
    have hot : otruthy (none : Option Int) = false := rfl
    have hassoc : otherRoomAssoc st.rooms none (jint? (dd.get "roomId"))
        (getStrD dd "type" "") = (jint? (dd.get "roomId"), none) := by
      simp [otherRoomAssoc, hraw, hot]
    constructor
    · rw [otherDeviceOf_room_name, hassoc]
    · rw [processOtherDevice_parts]
      have hrid : (otherDeviceOf st.rooms none dd).room_id = jint? (dd.get "roomId") := by
        rw [otherDeviceOf_room_id, hassoc]
      rw [hrid]
      cases hcase : jint? (dd.get "roomId") with
      | none => rfl
      | some i =>
        by_cases hiz : i ≠ 0
        · simp only [if_pos hiz]
          have : omLookup st.rooms i = none := by
            rw [hcase] at hraw
            simp only [truthyMem] at hraw
            by_cases hsome : (omLookup st.rooms i).isSome
            · rw [if_pos ⟨hiz, hsome⟩] at hraw
              cases hraw
            · exact Option.not_isSome_iff_eq_none.mp hsome
          rw [this]
        · simp only [if_neg hiz]

/-- The spec's C6 example: a roomless TR04 thermostat in a home where room 7
has 3 devices and room 2 has 1 is associated with room 7 and appended to its
device list. -/
theorem c6_thermostat_association_witness :
    (otherDeviceOf c6ExampleRooms (roomWithMostDevices c6ExampleRooms)
      c6ExamplePayload).room_id = some 7 ∧
    ∃ room', omLookup (processOtherDevice (roomWithMostDevices c6ExampleRooms)
        { rooms := c6ExampleRooms, devices := [], other_devices := [] }
        c6ExamplePayload).rooms 7 = some room' ∧
      otherDeviceOf c6ExampleRooms (roomWithMostDevices c6ExampleRooms)
        c6ExamplePayload ∈ room'.devices := by
  have h := (c6_thermostat_association
    { rooms := c6ExampleRooms, devices := [], other_devices := [] }
    c6ExamplePayload rfl rfl rfl).1 7 rfl
  exact ⟨h.1, h.2.2⟩

theorem omLookup_insertDevices (m : List (String × TadoXDevice))
    (L : List TadoXDevice) (s : String) (v : TadoXDevice)
    (h : omLookup (insertDevices m L) s = some v) :
    (v ∈ L ∧ v.serial_number = s) ∨
    (omLookup m s = some v ∧ s ∉ L.map TadoXDevice.serial_number) := by
  induction L generalizing m with
  | nil =>
    right
    exact ⟨h, by simp⟩
  | cons d rest ih =>
    rcases ih _ h with ⟨hm, hs⟩ | ⟨hl, hn⟩
    · left
      exact ⟨List.mem_cons_of_mem _ hm, hs⟩
    · by_cases hds : d.serial_number = s
      · left
        subst hds
        rw [omLookup_insert_self] at hl
        cases Option.some.inj hl
        exact ⟨List.mem_cons_self _ _, rfl⟩
      · right
        rw [omLookup_insert_ne _ _ _ _ hds] at hl
        refine ⟨hl, ?_⟩
        simp only [List.map_cons, List.mem_cons, not_or]
        exact ⟨fun he => hds he.symm, hn⟩

theorem insertDevices_isSome_mono (m : List (String × TadoXDevice))
    (L : List TadoXDevice) (s : String) (h : (omLookup m s).isSome) :
    (omLookup (insertDevices m L) s).isSome := by
  induction L generalizing m with
  | nil => exact h
  | cons d rest ih => exact ih _ (omLookup_insert_isSome _ _ _ _ h)

theorem insertDevices_isSome_of_mem (m : List (String × TadoXDevice))
    (L : List TadoXDevice) (s : String) (h : s ∈ L.map TadoXDevice.serial_number) :
    (omLookup (insertDevices m L) s).isSome := by
  induction L generalizing m with
  | nil => simp at h
  | cons d rest ih =>
    simp only [List.map_cons, List.mem_cons] at h
    by_cases hh : s ∈ rest.map TadoXDevice.serial_number
    · exact ih _ hh
    · have hs : s = d.serial_number := by tauto
      subst hs
      exact insertDevices_isSome_mono _ rest _ (by rw [omLookup_insert_self]; rfl)

theorem processRoomDevices_spec (rid : Int) (rname : String)
    (devs0 : List TadoXDevice) (flat0 : List (String × TadoXDevice))
    (ds : List JValue) :
    processRoomDevices rid rname (devs0, flat0) ds =
      (devs0 ++ ds.map (normalizeDevice rid rname),
       insertDevices flat0 (ds.map (normalizeDevice rid rname))) := by
  induction ds generalizing devs0 flat0 with
  | nil => simp [processRoomDevices, insertDevices]
  | cons dd rest ih =>
    have hstep : processRoomDevices rid rname (devs0, flat0) (dd :: rest) =
        processRoomDevices rid rname
          (devs0 ++ [normalizeDevice rid rname dd],
           omInsert flat0 (normalizeDevice rid rname dd).serial_number
             (normalizeDevice rid rname dd)) rest := rfl
    rw [hstep, ih]
    simp [insertDevices]

theorem normalizeDevice_serial (rid : Int) (rname : String) (dd : JValue) :
    (normalizeDevice rid rname dd).serial_number = serialOf dd := rfl

theorem normalizeDevice_room_id (rid : Int) (rname : String) (dd : JValue) :
    (normalizeDevice rid rname dd).room_id = some rid := rfl

theorem map_serial_normalize (rid : Int) (rname : String) (ds : List JValue) :
    (ds.map (normalizeDevice rid rname)).map TadoXDevice.serial_number =
      ds.map serialOf := by
  rw [List.map_map]
  exact List.map_congr_left (fun dd _ => rfl)

theorem roomIdOf_ne_zero (rd : JValue) (rid : Int) (h : roomIdOf rd = some rid) :
    rid ≠ 0 := by
  rw [roomIdOf] at h
  cases hj : jint? (rd.get "id") with
  | none =>
    rw [hj] at h
    cases h
  | some i =>
    rw [hj] at h
    by_cases hz : i = 0
    · simp [hz] at h
    · simp [hz] at h
      exact h ▸ hz

theorem normalizeRoom_fields (rd : JValue) (room : TadoXRoom)
    (h : normalizeRoom rd = some room) :
    room.devices = [] ∧ room.room_id ≠ 0 := by
  rw [normalizeRoom] at h
  cases hid : roomIdOf rd with
  | none =>
    rw [hid] at h
    cases h
  | some rid =>
    rw [hid] at h
    cases Option.some.inj h
    exact ⟨rfl, roomIdOf_ne_zero rd rid hid⟩

theorem processRoomStep_inv (rmap : List (Int × List JValue))
    (st : List (Int × TadoXRoom) × List (String × TadoXDevice)) (rd : JValue)
    (h : Phase1Inv rmap st) : Phase1Inv rmap (processRoomStep rmap st rd) := by
  obtain ⟨h0, hK, hS, hA, hC⟩ := h
  cases hnr : normalizeRoom rd with
  | none =>
    rw [processRoomStep, hnr]
    exact ⟨h0, hK, hS, hA, hC⟩
  | some room =>
    obtain ⟨hdev, hnz⟩ := normalizeRoom_fields rd room hnr
    have hstep : processRoomStep rmap st rd = (omInsert st.1 room.room_id { room with devices := ((omLookup rmap room.room_id).getD []).map (normalizeDevice room.room_id room.name) }, insertDevices st.2 (((omLookup rmap room.room_id).getD []).map (normalizeDevice room.room_id room.name))) := by
      rw [processRoomStep, hnr]
      simp only [processRoomDevices_spec, hdev, List.nil_append]
    rw [hstep]
    refine ⟨?_, ?_, ?_, ?_, ?_⟩
    · show omLookup (omInsert st.1 room.room_id _) 0 = none
      rw [omLookup_insert_ne _ _ _ _ hnz]
      exact h0
    · intro s dev hl
      rcases omLookup_insertDevices _ _ _ _ hl with ⟨-, hs⟩ | ⟨hold, -⟩
      · exact hs
      · exact hK s dev hold
    · intro s dev hl rid hrid
      rcases omLookup_insertDevices _ _ _ _ hl with ⟨hm, hs⟩ | ⟨hold, -⟩
      · obtain ⟨dd, hdd, hdeq⟩ := List.mem_map.mp hm
        subst hdeq
        rw [normalizeDevice_room_id] at hrid
        cases Option.some.inj hrid
        rw [← hs, normalizeDevice_serial]
        exact List.mem_map_of_mem serialOf hdd
      · exact hS s dev hold rid hrid
    · intro s dev hl rid hrid room' hroom'
      rcases omLookup_insertDevices _ _ _ _ hl with ⟨hm, hs⟩ | ⟨hold, hnot⟩
      · obtain ⟨dd, hdd, hdeq⟩ := List.mem_map.mp hm
        subst hdeq
        rw [normalizeDevice_room_id] at hrid
        cases Option.some.inj hrid
        rw [omLookup_insert_self] at hroom'
        cases Option.some.inj hroom'
        exact List.mem_map_of_mem _ hdd
      · by_cases hr : rid = room.room_id
        · subst hr
          have hmem := hS s dev hold room.room_id hrid
          rw [← map_serial_normalize room.room_id room.name] at hmem
          exact absurd hmem hnot
        · rw [omLookup_insert_ne _ _ _ _ (fun he => hr he.symm)] at hroom'
          exact hA s dev hold rid hrid room' hroom'
    · intro rid' room' hroom' dev hdev'
      by_cases hr : rid' = room.room_id
      · subst hr
        rw [omLookup_insert_self] at hroom'
        cases Option.some.inj hroom'
        exact insertDevices_isSome_of_mem _ _ _
          (List.mem_map_of_mem TadoXDevice.serial_number hdev')
      · rw [omLookup_insert_ne _ _ _ _ (fun he => hr he.symm)] at hroom'
        exact insertDevices_isSome_mono _ _ _ (hC rid' room' hroom' dev hdev')

theorem processRoomsPhase_inv (roomsData : List JValue)
    (rmap : List (Int × List JValue)) :
    Phase1Inv rmap (processRoomsPhase roomsData rmap) := by
  have base : Phase1Inv rmap ([], []) := by
    refine ⟨rfl, ?_, ?_, ?_, ?_⟩
    · intro s dev h
      cases h
    · intro s dev h
      cases h
    · intro s dev h
      cases h
    · intro rid room h
      cases h
  rw [processRoomsPhase]
  have hfold : ∀ st, Phase1Inv rmap st →
      Phase1Inv rmap (roomsData.foldl (processRoomStep rmap) st) := by
    induction roomsData with
    | nil => exact fun st h => h
    | cons rd rest ih => exact fun st h => ih _ (processRoomStep_inv rmap st rd h)
  exact hfold _ base

theorem processOtherDevice_devices (rwm : Option Int) (st : OtherState) (dd : JValue) :
    (processOtherDevice rwm st dd).devices =
      omInsert st.devices (otherDeviceOf st.rooms rwm dd).serial_number
        (otherDeviceOf st.rooms rwm dd) := rfl

theorem processOtherDevice_rooms_cases (rwm : Option Int) (st : OtherState) (dd : JValue) :
    ((otherDeviceOf st.rooms rwm dd).room_id = none ∧
      (processOtherDevice rwm st dd).rooms = st.rooms) ∨
    ((otherDeviceOf st.rooms rwm dd).room_id = some 0 ∧
      (processOtherDevice rwm st dd).rooms = st.rooms) ∨
    (∃ i, (otherDeviceOf st.rooms rwm dd).room_id = some i ∧ i ≠ 0 ∧
      omLookup st.rooms i = none ∧
      (processOtherDevice rwm st dd).rooms = st.rooms) ∨
    (∃ i room0, (otherDeviceOf st.rooms rwm dd).room_id = some i ∧ i ≠ 0 ∧
      omLookup st.rooms i = some room0 ∧
      (processOtherDevice rwm st dd).rooms =
        omInsert st.rooms i { room0 with devices := room0.devices ++ [otherDeviceOf st.rooms rwm dd] }) := by
  rw [processOtherDevice_parts]
  cases hrid : (otherDeviceOf st.rooms rwm dd).room_id with
  | none =>
    left
    exact ⟨rfl, rfl⟩
  | some i =>
    by_cases hiz : i = 0
    · right
      left
      subst hiz
      simp
    · cases hlook : omLookup st.rooms i with
      | none =>
        right
        right
        left
        exact ⟨i, rfl, hiz, hlook, by simp [hiz, hlook]⟩
      | some room0 =>
        right
        right
        right
        exact ⟨i, room0, rfl, hiz, hlook, by simp [hiz, hlook]⟩

theorem processOtherDevice_inv (rwm : Option Int) (st : OtherState) (dd : JValue)
    (h : Phase2Inv st) : Phase2Inv (processOtherDevice rwm st dd) := by
  obtain ⟨h0, hA, hC⟩ := h
  rcases processOtherDevice_rooms_cases rwm st dd with
    ⟨hrid, hrooms⟩ | ⟨hrid, hrooms⟩ | ⟨i, hrid, hiz, hlook, hrooms⟩ |
    ⟨i, room0, hrid, hiz, hlook, hrooms⟩
  · refine ⟨by rw [hrooms]; exact h0, ?_, ?_⟩
    · intro s dev hl rid hrid' room hroom
      rw [hrooms] at hroom
      rw [processOtherDevice_devices] at hl
      by_cases hs : (otherDeviceOf st.rooms rwm dd).serial_number = s
      · subst hs
        rw [omLookup_insert_self] at hl
        cases Option.some.inj hl
        rw [hrid] at hrid'
        cases hrid'
      · rw [omLookup_insert_ne _ _ _ _ hs] at hl
        exact hA s dev hl rid hrid' room hroom
    · intro rid room hroom dev hdev
      rw [hrooms] at hroom
      rw [processOtherDevice_devices]
      exact omLookup_insert_isSome _ _ _ _ (hC rid room hroom dev hdev)
  · refine ⟨by rw [hrooms]; exact h0, ?_, ?_⟩
    · intro s dev hl rid hrid' room hroom
      rw [hrooms] at hroom
      rw [processOtherDevice_devices] at hl
      by_cases hs : (otherDeviceOf st.rooms rwm dd).serial_number = s
      · subst hs
        rw [omLookup_insert_self] at hl
        cases Option.some.inj hl
        rw [hrid] at hrid'
        cases Option.some.inj hrid'
        rw [h0] at hroom
        cases hroom
      · rw [omLookup_insert_ne _ _ _ _ hs] at hl
        exact hA s dev hl rid hrid' room hroom
    · intro rid room hroom dev hdev
      rw [hrooms] at hroom
      rw [processOtherDevice_devices]
      exact omLookup_insert_isSome _ _ _ _ (hC rid room hroom dev hdev)
  · refine ⟨by rw [hrooms]; exact h0, ?_, ?_⟩
    · intro s dev hl rid hrid' room hroom
      rw [hrooms] at hroom
      rw [processOtherDevice_devices] at hl
      by_cases hs : (otherDeviceOf st.rooms rwm dd).serial_number = s
      · subst hs
        rw [omLookup_insert_self] at hl
        cases Option.some.inj hl
        rw [hrid] at hrid'
        cases Option.some.inj hrid'
        rw [hlook] at hroom
        cases hroom
      · rw [omLookup_insert_ne _ _ _ _ hs] at hl
        exact hA s dev hl rid hrid' room hroom
    · intro rid room hroom dev hdev
      rw [hrooms] at hroom
      rw [processOtherDevice_devices]
      exact omLookup_insert_isSome _ _ _ _ (hC rid room hroom dev hdev)
  · refine ⟨?_, ?_, ?_⟩
    · show omLookup (processOtherDevice rwm st dd).rooms 0 = none
      rw [hrooms, omLookup_insert_ne _ _ _ _ hiz]
      exact h0
    · intro s dev hl rid hrid' room hroom
      rw [hrooms] at hroom
      rw [processOtherDevice_devices] at hl
      by_cases hs : (otherDeviceOf st.rooms rwm dd).serial_number = s
      · subst hs
        rw [omLookup_insert_self] at hl
        cases Option.some.inj hl
        rw [hrid] at hrid'
        cases Option.some.inj hrid'
        rw [omLookup_insert_self] at hroom
        cases Option.some.inj hroom
        exact List.mem_append_right _ (List.mem_cons_self _ _)
      · rw [omLookup_insert_ne _ _ _ _ hs] at hl
        by_cases hri : rid = i
        · subst hri
          rw [omLookup_insert_self] at hroom
          cases Option.some.inj hroom
          exact List.mem_append_left _ (hA s dev hl _ hrid' room0 hlook)
        · rw [omLookup_insert_ne _ _ _ _ (fun he => hri he.symm)] at hroom
          exact hA s dev hl rid hrid' room hroom
    · intro rid room hroom dev hdev
      rw [hrooms] at hroom
      rw [processOtherDevice_devices]
      by_cases hri : rid = i
      · subst hri
        rw [omLookup_insert_self] at hroom
        cases Option.some.inj hroom
        rcases List.mem_append.mp hdev with hdev' | hdev'
        · exact omLookup_insert_isSome _ _ _ _ (hC rid room0 hlook dev hdev')
        · cases List.mem_singleton.mp hdev'
          rw [omLookup_insert_self]
          rfl
      · rw [omLookup_insert_ne _ _ _ _ (fun he => hri he.symm)] at hroom
        exact omLookup_insert_isSome _ _ _ _ (hC rid room hroom dev hdev)

theorem buildOtherState_inv (roomsData : List JValue) (roomsDevicesData : JValue) :
    Phase2Inv (buildOtherState roomsData roomsDevicesData) := by
  have h1 := processRoomsPhase_inv roomsData
    (roomDevicesMap ((roomsDevicesData.getD "rooms" (.arr [])).asList))
  have h2 : Phase2Inv
      { rooms := (processRoomsPhase roomsData
          (roomDevicesMap ((roomsDevicesData.getD "rooms" (.arr [])).asList))).1
        devices := (processRoomsPhase roomsData
          (roomDevicesMap ((roomsDevicesData.getD "rooms" (.arr [])).asList))).2
        other_devices := [] } :=
    ⟨h1.1, h1.2.2.2.1, h1.2.2.2.2⟩
  have hfold : ∀ (rwm : Option Int) (others : List JValue) (st : OtherState),
      Phase2Inv st → Phase2Inv (others.foldl (processOtherDevice rwm) st) := by
    intro rwm others
    induction others with
    | nil => exact fun st h => h
    | cons dd rest ih => exact fun st h => ih _ (processOtherDevice_inv rwm st dd h)
  exact hfold _ _ _ h2

/-- C5 amended: every snapshot from a normalization pass satisfies (a) every
device reachable through a room's devices list has an entry in the flat index
under its serial key, and (b) every flat-index device whose room id names a
room present in the snapshot is contained in that room's devices list. (An
"other" device whose raw room id names no built room keeps that id in the
flat index while belonging to no room's list, which is why (b) is restricted
to room ids present in the snapshot.) -/
theorem c5_snapshot_consistency_amended (home_id : Int) (home_name : String)
    (presence : Option String) (roomsData : List JValue) (roomsDevicesData : JValue) :
    (∀ rid room,
      omLookup (buildData home_id home_name presence roomsData roomsDevicesData).rooms rid =
        some room →
      ∀ dev ∈ room.devices,
        (omLookup (buildData home_id home_name presence roomsData roomsDevicesData).devices
          dev.serial_number).isSome) ∧
    (∀ s dev,
      omLookup (buildData home_id home_name presence roomsData roomsDevicesData).devices s =
        some dev →
      ∀ rid, dev.room_id = some rid →
        ∀ room,
          omLookup (buildData home_id home_name presence roomsData roomsDevicesData).rooms rid =
            some room → dev ∈ room.devices) := by
  have h := buildOtherState_inv roomsData roomsDevicesData
  exact ⟨h.2.2, h.2.1⟩

/-- C5 as stated is false: normalizing `c5CexPayload` (no rooms, one other
device whose raw room id 5 names no room) puts a device with room id 5 into
the flat index while no room 5 exists, so the flat-index device is in no
room's devices list. -/
theorem c5_consistency_counterexample : ¬ snapshotConsistent c5CexData := by
  intro h
  have hx : omLookup c5CexData.devices "X" = some
      { serial_number := "X", device_type := "BU01", firmware_version := ""
        connection_state := "DISCONNECTED", room_id := some 5, room_name := none } := by
    rfl
  obtain ⟨room, hroom, -⟩ := h.2 "X" _ hx 5 rfl
  have hempty : omLookup c5CexData.rooms 5 = none := rfl
  rw [hempty] at hroom
  cases hroom
